import Mathlib

/-!
Shallow embedding of the license server (`src/app`), covering the pieces the
claims are about: the timestamp codec (`service.to_rfc3339` /
`service.parse_rfc3339`), calendar-month arithmetic (`service._add_months`),
the remaining-time decomposer (`service.split_remaining_time`), the lease
issuance decision (`service.issue_token`), license creation
(`license_admin.create_license`), the key-generation retry loop, and the
record-store operations of `db.py`.

Modelling conventions:
* Python `datetime` values are always timezone-aware UTC instants at second
  precision here (the code truncates microseconds via `utc_now` /
  `to_rfc3339`), so an instant is a `DateTime` structure of calendar fields;
  `toSeconds` maps it to its count of seconds since the proleptic-Gregorian
  epoch (day 1 = 0001-01-01, exactly `datetime.toordinal`).  Python compares
  aware datetimes by instant, which for in-range calendar values coincides
  with comparing `toSeconds`.
* The SQLite table keyed by `license_key` is a function
  `String → Option LicenseRecord`; `UPDATE ... WHERE license_key = ?` touches
  at most the one matching row and `rowcount > 0` is `Option.isSome` of the
  lookup.  The stored `issued_at` RFC 3339 text is modelled post-parse as a
  `DateTime` (the code always writes well-formed `to_rfc3339` output).
* Python `while` loops are given explicit fuel; the fuel arguments chosen
  below strictly dominate the number of iterations the source loop can make
  on representable (valid) datetimes, so the embedded function agrees with
  the source (comments at each loop justify the bound).
* `random.choice` / `uuid4` nondeterminism is an oracle parameter: the
  candidate-key stream is a function `Nat → String` giving the key produced
  on each attempt, and fresh lease ids are passed in.
-/

/-- A timezone-aware UTC instant at second precision (a Python
`datetime` with `tzinfo=timezone.utc`, `microsecond=0`). -/
structure DateTime where
  year : Nat
  month : Nat
  day : Nat
  hour : Nat
  minute : Nat
  second : Nat
  deriving DecidableEq, Repr

/-- Gregorian leap-year test (`calendar.isleap`). -/
def isLeap (y : Nat) : Bool :=
  y % 4 == 0 && (y % 100 != 0 || y % 400 == 0)

/-- `calendar.monthrange(y, m)[1]`: number of days of month `m` of year `y`
(months outside 1..12 never arise from the source's arithmetic). -/
def daysInMonth (y m : Nat) : Nat :=
  match m with
  | 1 => 31
  | 2 => if isLeap y then 29 else 28
  | 3 => 31
  | 4 => 30
  | 5 => 31
  | 6 => 30
  | 7 => 31
  | 8 => 31
  | 9 => 30
  | 10 => 31
  | 11 => 30
  | 12 => 31
  | _ => 0

/-- Days in all years before year `y` (Python `datetime._days_before_year`). -/
def daysBeforeYear (y : Nat) : Nat :=
  365 * (y - 1) + (y - 1) / 4 - (y - 1) / 100 + (y - 1) / 400

/-- Days of year `y` strictly before month `m` (Python
`datetime._days_before_month`). -/
def daysBeforeMonth (y : Nat) : Nat → Nat
  | 0 => 0
  | 1 => 0
  | m + 1 => daysBeforeMonth y m + daysInMonth y m

/-- Proleptic-Gregorian ordinal of the date (Python `date.toordinal`:
0001-01-01 is day 1). -/
def toOrdinal (d : DateTime) : Nat :=
  daysBeforeYear d.year + daysBeforeMonth d.year d.month + d.day

/-- Seconds since 0001-01-01T00:00:00Z.  Two aware Python datetimes compare
equal/less exactly as their `toSeconds` values do (for in-range fields). -/
def toSeconds (d : DateTime) : Nat :=
  (toOrdinal d - 1) * 86400 + d.hour * 3600 + d.minute * 60 + d.second

/-- The calendar fields are in the ranges Python's `datetime` guarantees. -/
def ValidDT (d : DateTime) : Prop :=
  1 ≤ d.year ∧ d.year ≤ 9999 ∧ 1 ≤ d.month ∧ d.month ≤ 12 ∧
    1 ≤ d.day ∧ d.day ≤ daysInMonth d.year d.month ∧
    d.hour ≤ 23 ∧ d.minute ≤ 59 ∧ d.second ≤ 59

instance (d : DateTime) : Decidable (ValidDT d) := by
  unfold ValidDT; infer_instance

/-- `service._add_months(value, months)`: add `months` calendar months,
clamping the day-of-month to the end of the target month.  (`months` is a
`Nat`; the source raises on negative input before doing anything.) -/
def addMonths (value : DateTime) (months : Nat) : DateTime :=
  let yearOffset := ((value.month - 1) + months) / 12
  let monthIndex := ((value.month - 1) + months) % 12
  let year := value.year + yearOffset
  let month := monthIndex + 1
  let day := min value.day (daysInMonth year month)
  { value with year := year, month := month, day := day }

/-- One greedy `while` loop of `service.split_remaining_time`: starting from
`cursor`, repeatedly step by `step` calendar months while the result does not
pass `expiresAt`; return the number of accepted steps and the final cursor.
`fuel` bounds the iterations (the source loop is unbounded but terminating). -/
def greedyLoop (step : Nat) : Nat → DateTime → DateTime → Nat × DateTime
  | 0, _, cursor => (0, cursor)
  | fuel + 1, expiresAt, cursor =>
    let next := addMonths cursor step
    if toSeconds expiresAt < toSeconds next then (0, cursor)
    else
      let rest := greedyLoop step fuel expiresAt next
      (rest.1 + 1, rest.2)

/-- The six-field breakdown returned by `service.split_remaining_time`. -/
structure RemainingTime where
  years : Nat
  months : Nat
  days : Nat
  hours : Nat
  minutes : Nat
  seconds : Nat
  deriving DecidableEq, Repr

/-- `service.split_remaining_time(now, expires_at)`.  Fuel bounds: every
accepted 12-month step raises `cursor.year` by exactly 1 and keeps
`cursor ≤ expiresAt`, so the year loop makes at most `expiresAt.year`
accepted steps from any valid cursor; the month loop accepts at most 12
steps (a 13th one-month step would land strictly beyond
`addMonths cursor 12`, which the year loop already found to pass
`expiresAt`).  The residue uses `Nat` subtraction, which equals the
source's `max(0, ...)`. -/
def split_remaining_time (now expiresAt : DateTime) : RemainingTime :=
  if toSeconds expiresAt ≤ toSeconds now then ⟨0, 0, 0, 0, 0, 0⟩
  else
    let yl := greedyLoop 12 (expiresAt.year + 2) expiresAt now
    let ml := greedyLoop 1 14 expiresAt yl.2
    let remainingSeconds := toSeconds expiresAt - toSeconds ml.2
    { years := yl.1
      months := ml.1
      days := remainingSeconds / 86400
      hours := remainingSeconds % 86400 / 3600
      minutes := remainingSeconds % 86400 % 3600 / 60
      seconds := remainingSeconds % 86400 % 3600 % 60 }

/-! ### Timestamp codec (`service.to_rfc3339` / `service.parse_rfc3339`)

`format` turns a UTC second-precision instant into `YYYY-MM-DDTHH:MM:SSZ`
(Python `isoformat()` with `+00:00` replaced by `Z`).  `parse` strips
surrounding whitespace, turns a trailing `Z` into `+00:00`, reads the
ISO 8601 date-time, and rejects text with no UTC offset ("Timestamp must
include timezone information"); a parsed offset is subtracted to yield the
UTC instant (`astimezone(timezone.utc)`).  Since aware Python datetimes are
compared and equal as instants, `parse` returns the instant as its signed
second count since the epoch of `toSeconds`.  The grammar modelled is the
fixed-width `YYYY-MM-DD?HH:MM:SS[±HH:MM]` fragment of `fromisoformat` that
the repository reads and writes (no fractional seconds, no reduced
precision); any single character is accepted as the date-time separator,
as in Python 3.11+. -/

/-- The decimal digit character for `n ≤ 9`. -/
def digitChar (n : Nat) : Char := Char.ofNat (48 + n)

/-- Numeric value of a digit character. -/
def digitVal (c : Char) : Nat := c.toNat - 48

/-- Is `c` an ASCII decimal digit? -/
def isDigitChar (c : Char) : Bool := 48 ≤ c.toNat && c.toNat ≤ 57

/-- Is `c` ASCII whitespace (the characters `str.strip()` removes on the
text the repository handles)? -/
def isSpaceChar (c : Char) : Bool :=
  c == ' ' || c == '\t' || c == '\n' || c == '\x0d' || c == '\x0b' || c == '\x0c'

/-- Two-digit zero-padded rendering (`%02d`). -/
def pad2 (n : Nat) : List Char := [digitChar (n / 10), digitChar (n % 10)]

/-- Four-digit zero-padded rendering (`%04d`, Python's year field). -/
def pad4 (n : Nat) : List Char :=
  [digitChar (n / 1000), digitChar (n / 100 % 10), digitChar (n / 10 % 10),
    digitChar (n % 10)]

/-- `service.to_rfc3339(value)` for a UTC second-precision instant (the
`astimezone` / `replace(microsecond=0)` steps are the identity here). -/
def to_rfc3339 (d : DateTime) : String :=
  ⟨pad4 d.year ++ '-' :: pad2 d.month ++ '-' :: pad2 d.day ++
    'T' :: pad2 d.hour ++ ':' :: pad2 d.minute ++ ':' :: pad2 d.second ++ ['Z']⟩

/-- `str.strip()` on the character list. -/
def stripChars (l : List Char) : List Char :=
  ((l.dropWhile isSpaceChar).reverse.dropWhile isSpaceChar).reverse

/-- Read the fixed-width `YYYY-MM-DD?HH:MM:SS` prefix (any single
separator character between date and time, as `fromisoformat` allows);
return the fields and the unconsumed rest, or `none` when the shape or the
calendar ranges are wrong (`fromisoformat` raises `ValueError`). -/
def parseDateTime19 : List Char → Option (DateTime × List Char)
  | y1 :: y2 :: y3 :: y4 :: '-' :: m1 :: m2 :: '-' :: d1 :: d2 ::
      _sep :: h1 :: h2 :: ':' :: mi1 :: mi2 :: ':' :: s1 :: s2 :: rest =>
    if isDigitChar y1 && isDigitChar y2 && isDigitChar y3 && isDigitChar y4 &&
        isDigitChar m1 && isDigitChar m2 && isDigitChar d1 && isDigitChar d2 &&
        isDigitChar h1 && isDigitChar h2 && isDigitChar mi1 && isDigitChar mi2 &&
        isDigitChar s1 && isDigitChar s2 then
      let d : DateTime :=
        { year := digitVal y1 * 1000 + digitVal y2 * 100 + digitVal y3 * 10 + digitVal y4
          month := digitVal m1 * 10 + digitVal m2
          day := digitVal d1 * 10 + digitVal d2
          hour := digitVal h1 * 10 + digitVal h2
          minute := digitVal mi1 * 10 + digitVal mi2
          second := digitVal s1 * 10 + digitVal s2 }
      if 1 ≤ d.year ∧ 1 ≤ d.month ∧ d.month ≤ 12 ∧ 1 ≤ d.day ∧
          d.day ≤ daysInMonth d.year d.month ∧ d.hour ≤ 23 ∧ d.minute ≤ 59 ∧
          d.second ≤ 59 then
        some (d, rest)
      else none
    else none
  | _ => none

/-- Read a `±HH:MM` UTC offset (the offset shapes the repository's data can
carry); result in signed seconds. -/
def parseOffset : List Char → Option Int
  | sign :: o1 :: o2 :: ':' :: o3 :: o4 :: [] =>
    if (sign == '+' || sign == '-') && isDigitChar o1 && isDigitChar o2 &&
        isDigitChar o3 && isDigitChar o4 then
      let h := digitVal o1 * 10 + digitVal o2
      let m := digitVal o3 * 10 + digitVal o4
      if h ≤ 23 ∧ m ≤ 59 then
        some (if sign == '-' then -((h * 3600 + m * 60 : Nat) : Int)
          else ((h * 3600 + m * 60 : Nat) : Int))
      else none
    else none
  | _ => none

/-- `service.parse_rfc3339(value)`: the returned aware datetime is
identified with its instant, the signed second count of `toSeconds`. -/
def parse_rfc3339 (value : String) : Except String Int :=
  let candidate := stripChars value.data
  let candidate :=
    if candidate.getLast? = some 'Z' then
      candidate.dropLast ++ ['+', '0', '0', ':', '0', '0']
    else candidate
  match parseDateTime19 candidate with
  | none => .error "Invalid isoformat string"
  | some (d, rest) =>
    match rest with
    | [] => .error "Timestamp must include timezone information"
    | _ =>
      match parseOffset rest with
      | none => .error "Invalid isoformat string"
      | some off => .ok ((toSeconds d : Int) - off)

/-! ### License records and the store (`models.py`, `db.py`) -/

/-- `models.StatusType`: the stored operator flag. -/
inductive Status where
  | active
  | disabled
  deriving DecidableEq, Repr

/-- `models.LicenseRecord`; `issued_at` is the stored RFC 3339 text
modelled post-parse (the repository only ever writes `to_rfc3339` output
there). -/
structure LicenseRecord where
  license_key : String
  issued_at : DateTime
  duration_days : Nat
  status : Status
  note : Option String
  deriving DecidableEq, Repr

/-- The `licenses` table keyed by its primary key `license_key`. -/
def Store : Type := String → Option LicenseRecord

/-- `db.get_license`. -/
def get_license (store : Store) (key : String) : Option LicenseRecord :=
  store key

/-- `db.insert_license`: `none` models the `sqlite3.IntegrityError` raised
by the `license_key` primary-key constraint when the key already exists. -/
def insert_license (store : Store) (record : LicenseRecord) : Option Store :=
  match store record.license_key with
  | some _ => none
  | none =>
    some fun k => if k = record.license_key then some record else store k

/-- `db._set_license_status`: `UPDATE licenses SET status = ? WHERE
license_key = ?`; the second component is `rowcount > 0`. -/
def set_license_status (store : Store) (key : String) (status : Status) :
    Store × Bool :=
  match store key with
  | none => (store, false)
  | some r =>
    (fun k => if k = key then some { r with status := status } else store k,
      true)

/-- `db.disable_license`. -/
def disable_license (store : Store) (key : String) : Store × Bool :=
  set_license_status store key .disabled

/-- `db.enable_license`. -/
def enable_license (store : Store) (key : String) : Store × Bool :=
  set_license_status store key .active

/-- `db.reactivate_license`: `UPDATE licenses SET issued_at = ?,
duration_days = ?, status = 'active' WHERE license_key = ?`. -/
def reactivate_license (store : Store) (key : String) (issuedAt : DateTime)
    (durationDays : Nat) : Store × Bool :=
  match store key with
  | none => (store, false)
  | some r =>
    (fun k =>
        if k = key then
          some { r with
            issued_at := issuedAt
            duration_days := durationDays
            status := .active }
        else store k,
      true)

/-! ### Day arithmetic (`datetime + timedelta(days=n)`)

Adding a whole-day `timedelta` to an aware datetime advances the calendar
date and leaves the time of day unchanged; modelled as an `n`-fold
successor-day step. -/

/-- The next calendar day, same time of day. -/
def nextDay (d : DateTime) : DateTime :=
  if d.day < daysInMonth d.year d.month then { d with day := d.day + 1 }
  else if d.month < 12 then { d with month := d.month + 1, day := 1 }
  else { d with year := d.year + 1, month := 1, day := 1 }

/-- `d + timedelta(days = n)`. -/
def addDays (d : DateTime) (n : Nat) : DateTime := nextDay^[n] d

/-! ### Lease issuance (`service.issue_token`) -/

/-- `models.DeniedReason`. -/
inductive DeniedReason where
  | not_found
  | disabled
  | expired
  deriving DecidableEq, Repr

/-- The payload of `models.TokenAllowedResponse`.  Lease timestamps are
instants (epoch seconds): the lease expiry is a plain seconds offset, not
calendar arithmetic. -/
structure TokenAllowed where
  lease_id : String
  lease_issued_at : Nat
  lease_expires_at : Nat
  license_key : String
  license_issued_at : DateTime
  duration_days : Nat
  license_expires_at : DateTime
  remaining_time : RemainingTime
  token_ttl_seconds : Nat
  server_time : DateTime
  deriving DecidableEq, Repr

/-- `TokenAllowedResponse | TokenDeniedResponse`; the denied case carries
the reason and the `server_time`. -/
inductive TokenResponse where
  | allowed : TokenAllowed → TokenResponse
  | denied : DeniedReason → DateTime → TokenResponse
  deriving DecidableEq, Repr

/-- `service.issue_token(db_path, token_ttl_seconds, license_key, ...)`.
`now` is the clock reading (`utc_now()`), `leaseId` the fresh `uuid4`;
`app_id` / `app_version` are deleted unread by the source and omitted. -/
def issue_token (store : Store) (leaseId : String) (now : DateTime)
    (tokenTtlSeconds : Nat) (licenseKey : String) : TokenResponse :=
  match get_license store licenseKey with
  | none => .denied .not_found now
  | some record =>
    if record.status = .disabled then .denied .disabled now
    else
      let licenseExpires := addDays record.issued_at record.duration_days
      if toSeconds licenseExpires ≤ toSeconds now then .denied .expired now
      else
        .allowed
          { lease_id := leaseId
            lease_issued_at := toSeconds now
            lease_expires_at := toSeconds now + tokenTtlSeconds
            license_key := record.license_key
            license_issued_at := record.issued_at
            duration_days := record.duration_days
            license_expires_at := licenseExpires
            remaining_time := split_remaining_time now licenseExpires
            token_ttl_seconds := tokenTtlSeconds
            server_time := now }

/-! ### License creation (`license_admin.create_license`) and key generation -/

/-- `str.strip()`. -/
def pyStrip (s : String) : String := ⟨stripChars s.data⟩

/-- All-decimal-digit value of a nonempty character list, else `none`. -/
def digitsVal (l : List Char) : Option Nat :=
  if l ≠ [] ∧ l.all isDigitChar then
    some (l.foldl (fun acc c => acc * 10 + digitVal c) 0)
  else none

/-- Python `int(text)` on the decimal fragment the admin form can carry:
surrounding whitespace, an optional sign, then digits (digit-group
underscores are not modelled; the repository's forms never produce them). -/
def pyInt (s : String) : Option Int :=
  match stripChars s.data with
  | '+' :: rest => (digitsVal rest).map fun n => (n : Int)
  | '-' :: rest => (digitsVal rest).map fun n => -(n : Int)
  | rest => (digitsVal rest).map fun n => (n : Int)

/-- The distinguishable failures of `create_license` as its callers see
them: `ValueError` (bad argument), the `sqlite3.IntegrityError` an explicit
duplicate key propagates, and the `RuntimeError` raised when 100 generated
candidates all collided. -/
inductive CreateError where
  | invalidArgument : String → CreateError
  | duplicateKey : CreateError
  | generationExhausted : CreateError
  deriving DecidableEq, Repr

/-- `license_admin.KEY_GENERATION_ATTEMPTS`. -/
def KEY_GENERATION_ATTEMPTS : Nat := 100

/-- The generated-key retry loop of `license_admin.create_license`
(lines 66–81): on attempt `i` insert the candidate keyed `gen i`; a
uniqueness violation means retry with the next candidate; exhausting the
attempt budget raises `RuntimeError("Failed to generate a unique license
key")`. -/
def create_license_attempts (store : Store) (gen : Nat → String)
    (issuedAt : DateTime) (days : Nat) (note : Option String) :
    Nat → Nat → Except CreateError (Store × LicenseRecord)
  | 0, _ => .error .generationExhausted
  | fuel + 1, i =>
    let candidate : LicenseRecord :=
      { license_key := gen i
        issued_at := issuedAt
        duration_days := days
        status := .active
        note := note }
    match insert_license store candidate with
    | some store2 => .ok (store2, candidate)
    | none => create_license_attempts store gen issuedAt days note fuel (i + 1)

/-- `license_admin.create_license(db_path, days=…, key=…, note=…)`.
`now` is the `utc_now()` reading, `gen` the random candidate stream; the
result carries the updated store and the inserted record.  Note
normalization is Python truthiness: `note if note else None` keeps any
non-empty string (whitespace-only included) and drops only `None`/`""`. -/
def create_license (store : Store) (now : DateTime) (gen : Nat → String)
    (days : Int) (key : Option String) (note : Option String) :
    Except CreateError (Store × LicenseRecord) :=
  if days < 1 then .error (.invalidArgument "--days must be >= 1")
  else
    let normalizedNote : Option String :=
      match note with
      | none => none
      | some s => if s = "" then none else some s
    match key with
    | some k =>
      let candidateKey := pyStrip k
      if candidateKey = "" then .error (.invalidArgument "--key must be non-empty")
      else
        let record : LicenseRecord :=
          { license_key := candidateKey
            issued_at := now
            duration_days := days.toNat
            status := .active
            note := normalizedNote }
        match insert_license store record with
        | none => .error .duplicateKey
        | some store2 => .ok (store2, record)
    | none =>
      create_license_attempts store gen now days.toNat normalizedNote
        KEY_GENERATION_ATTEMPTS 0

/-- Exhaustion failure of the standalone key generator. -/
inductive GenError where
  | generationExhausted
  deriving DecidableEq, Repr

/-- Modelled from the spec: `generate_unique_key` is imported by
`app.admin` and `app.web_admin` from `app.license_admin`, but its
definition is not present under `src/`.  Per spec §4.2 it draws random
candidates and enforces uniqueness against the store by attempted
insertion — a candidate whose key the store already holds fails the
uniqueness constraint and is retried — for at most 100 attempts, then
fails with `GenerationExhausted`.  In this sequential model the insert's
uniqueness check is exactly a lookup of the candidate key. -/
def generate_unique_key_go (store : Store) (gen : Nat → String) :
    Nat → Nat → Except GenError String
  | 0, _ => .error .generationExhausted
  | fuel + 1, i =>
    if (store (gen i)).isSome then generate_unique_key_go store gen fuel (i + 1)
    else .ok (gen i)

/-- Modelled from the spec: see `generate_unique_key_go`. -/
def generate_unique_key (store : Store) (gen : Nat → String) :
    Except GenError String :=
  generate_unique_key_go store gen KEY_GENERATION_ATTEMPTS 0

/-! ### Admin web enable (`web_admin.enable_license_view`) -/

/-- A `_redirect_to_dashboard` outcome: redirect carrying an `error=` or a
`message=` query parameter. -/
inductive AdminOutcome where
  | errorRedirect : String → AdminOutcome
  | messageRedirect : String → AdminOutcome
  deriving DecidableEq, Repr

/-- `web_admin.enable_license_view(license_key, days=Form(None))`: the
handler of `POST /admin/licenses/{license_key}/enable`.  Returns the store
after the request and the redirect outcome. -/
def enable_license_view (store : Store) (licenseKey : String)
    (days : Option String) (now : DateTime) : Store × AdminOutcome :=
  match get_license store licenseKey with
  | none => (store, .errorRedirect s!"License key not found: {licenseKey}")
  | some record =>
    let isExpired :=
      toSeconds now ≥ toSeconds (addDays record.issued_at record.duration_days)
    if isExpired then
      let daysRaw := pyStrip (days.getD "")
      if daysRaw = "" then
        (store,
          .errorRedirect
            s!"License is expired. Select a duration (days) before enabling: {licenseKey}")
      else
        match pyInt daysRaw with
        | none => (store, .errorRedirect "Days must be an integer.")
        | some durationDays =>
          if durationDays < 1 then (store, .errorRedirect "Days must be >= 1.")
          else
            let r := reactivate_license store licenseKey now durationDays.toNat
            if r.2 then
              (r.1,
                .messageRedirect
                  s!"License reactivated for {durationDays} day(s): {licenseKey}")
            else (r.1, .errorRedirect s!"License key not found: {licenseKey}")
    else
      let r := enable_license store licenseKey
      if r.2 then (r.1, .messageRedirect s!"License enabled: {licenseKey}")
      else (r.1, .errorRedirect s!"License key not found: {licenseKey}")

/-- The canonical date-time text carrying no timezone information
(Python `isoformat()` of a naive datetime): `to_rfc3339` without the
trailing `Z`.  Used to state that `parse_rfc3339` rejects
timezone-less text. -/
def to_rfc3339_no_tz (d : DateTime) : String :=
  ⟨pad4 d.year ++ '-' :: pad2 d.month ++ '-' :: pad2 d.day ++
    'T' :: pad2 d.hour ++ ':' :: pad2 d.minute ++ ':' :: pad2 d.second⟩

/-! ## Theorems -/

/-- Loop invariant of the greedy month loops: starting at or before
`expiresAt`, the final cursor is the `count`-fold month step applied to the
start, and it never passes `expiresAt`. -/
lemma greedyLoop_spec (step : Nat) :
    ∀ (fuel : Nat) (e c : DateTime), toSeconds c ≤ toSeconds e →
      (greedyLoop step fuel e c).2 =
          (fun d => addMonths d step)^[(greedyLoop step fuel e c).1] c ∧
        toSeconds (greedyLoop step fuel e c).2 ≤ toSeconds e := by
  intro fuel
  induction fuel with
  | zero => intro e c h; simpa [greedyLoop] using h
  | succ n ih =>
    intro e c h
    by_cases hlt : toSeconds e < toSeconds (addMonths c step)
    · simpa [greedyLoop, hlt] using h
    · push_neg at hlt
      obtain ⟨h1, h2⟩ := ih e (addMonths c step) hlt
      refine ⟨?_, by simpa [greedyLoop, not_lt.mpr hlt] using h2⟩
      simp only [greedyLoop, if_neg (not_lt.mpr hlt)]
      rw [Function.iterate_succ_apply]
      exact h1

/-- C3 counterexample: the decomposition from 2024-01-31T00:00:00Z to
2024-03-31T00:00:00Z is NOT `months = 2` with `days = 0`: the clamped
month steps run Jan 31 → Feb 29 → Mar 29, leaving a 2-day residue. -/
theorem split_jan31_mar31_not_days_zero :
    split_remaining_time ⟨2024, 1, 31, 0, 0, 0⟩ ⟨2024, 3, 31, 0, 0, 0⟩ ≠
      ⟨0, 2, 0, 0, 0, 0⟩ := by decide

/-- C3 (amended): the remaining-time decomposition applied from
2024-01-31T00:00:00Z to 2024-03-31T00:00:00Z yields years = 0, months = 2,
days = 2, hours = 0, minutes = 0, seconds = 0. -/
theorem split_jan31_mar31_eq :
    split_remaining_time ⟨2024, 1, 31, 0, 0, 0⟩ ⟨2024, 3, 31, 0, 0, 0⟩ =
      ⟨0, 2, 2, 0, 0, 0⟩ := by decide

/-- C6: whenever `expiresAt <= now`, `split_remaining_time` returns the
all-zero breakdown without signalling an error, and on every pair of
instants all six returned fields are non-negative integers. -/
theorem split_remaining_time_expired_zero_and_nonneg :
    (∀ now expiresAt : DateTime, toSeconds expiresAt ≤ toSeconds now →
      split_remaining_time now expiresAt = ⟨0, 0, 0, 0, 0, 0⟩) ∧
    (∀ now expiresAt : DateTime,
      0 ≤ ((split_remaining_time now expiresAt).years : Int) ∧
      0 ≤ ((split_remaining_time now expiresAt).months : Int) ∧
      0 ≤ ((split_remaining_time now expiresAt).days : Int) ∧
      0 ≤ ((split_remaining_time now expiresAt).hours : Int) ∧
      0 ≤ ((split_remaining_time now expiresAt).minutes : Int) ∧
      0 ≤ ((split_remaining_time now expiresAt).seconds : Int)) := by
  constructor
  · intro now expiresAt h
    simp [split_remaining_time, h]
  · intro now expiresAt
    exact ⟨Int.ofNat_nonneg _, Int.ofNat_nonneg _, Int.ofNat_nonneg _,
      Int.ofNat_nonneg _, Int.ofNat_nonneg _, Int.ofNat_nonneg _⟩

/-- Witness for C6 at a concrete expired pair: an instant one second past
its expiry collapses to the all-zero breakdown. -/
theorem split_remaining_time_expired_zero_witness :
    split_remaining_time ⟨2024, 6, 1, 0, 0, 1⟩ ⟨2024, 6, 1, 0, 0, 0⟩ =
      ⟨0, 0, 0, 0, 0, 0⟩ :=
  split_remaining_time_expired_zero_and_nonneg.1 _ _ (by decide)

/-- C10: the decomposition is lossless.  For `now < expiresAt`, applying
the clamping 12-month step `years` times from `now`, then the clamping
1-month step `months` times, and finally advancing by
`days*86400 + hours*3600 + minutes*60 + seconds` seconds lands exactly on
`expiresAt` (instants identified with their second counts). -/
theorem split_remaining_time_lossless (now expiresAt : DateTime)
    (h : toSeconds now < toSeconds expiresAt) :
    toSeconds
        ((fun d => addMonths d 1)^[(split_remaining_time now expiresAt).months]
          ((fun d => addMonths d 12)^[(split_remaining_time now expiresAt).years]
            now)) +
      ((split_remaining_time now expiresAt).days * 86400 +
        (split_remaining_time now expiresAt).hours * 3600 +
        (split_remaining_time now expiresAt).minutes * 60 +
        (split_remaining_time now expiresAt).seconds) = toSeconds expiresAt := by
  have hne : ¬ toSeconds expiresAt ≤ toSeconds now := not_le.mpr h
  obtain ⟨hy1, hy2⟩ :=
    greedyLoop_spec 12 (expiresAt.year + 2) expiresAt now (le_of_lt h)
  obtain ⟨hm1, hm2⟩ :=
    greedyLoop_spec 1 14 expiresAt
      (greedyLoop 12 (expiresAt.year + 2) expiresAt now).2 hy2
  simp only [split_remaining_time, if_neg hne]
  rw [← hy1, ← hm1]
  omega

/-- Witness for C10 at a concrete pair with `now < expiresAt`. -/
theorem split_remaining_time_lossless_witness :
    toSeconds ⟨2024, 1, 31, 0, 0, 0⟩ < toSeconds ⟨2025, 3, 30, 5, 6, 7⟩ ∧
      toSeconds
          ((fun d => addMonths d 1)^[(split_remaining_time ⟨2024, 1, 31, 0, 0, 0⟩
                ⟨2025, 3, 30, 5, 6, 7⟩).months]
            ((fun d => addMonths d 12)^[(split_remaining_time ⟨2024, 1, 31, 0, 0, 0⟩
                  ⟨2025, 3, 30, 5, 6, 7⟩).years]
              ⟨2024, 1, 31, 0, 0, 0⟩)) +
        ((split_remaining_time ⟨2024, 1, 31, 0, 0, 0⟩ ⟨2025, 3, 30, 5, 6, 7⟩).days * 86400 +
          (split_remaining_time ⟨2024, 1, 31, 0, 0, 0⟩ ⟨2025, 3, 30, 5, 6, 7⟩).hours * 3600 +
          (split_remaining_time ⟨2024, 1, 31, 0, 0, 0⟩ ⟨2025, 3, 30, 5, 6, 7⟩).minutes * 60 +
          (split_remaining_time ⟨2024, 1, 31, 0, 0, 0⟩ ⟨2025, 3, 30, 5, 6, 7⟩).seconds) =
        toSeconds ⟨2025, 3, 30, 5, 6, 7⟩ :=
  ⟨by decide, split_remaining_time_lossless _ _ (by decide)⟩

/-- C1: the lease-issuance decision applies its checks in order — absent
record denies `not_found`; stored status `disabled` denies `disabled`;
`now >= issuedAt + durationDays` denies `expired`; otherwise it allows.
In particular a license that is both disabled and past its window denies
with reason `disabled`, never `expired`. -/
theorem issue_token_decision_order :
    ∀ (store : Store) (leaseId : String) (now : DateTime) (ttl : Nat)
      (key : String),
      (get_license store key = none →
        issue_token store leaseId now ttl key = .denied .not_found now) ∧
      (∀ r, get_license store key = some r → r.status = .disabled →
        issue_token store leaseId now ttl key = .denied .disabled now) ∧
      (∀ r, get_license store key = some r → r.status ≠ .disabled →
        toSeconds (addDays r.issued_at r.duration_days) ≤ toSeconds now →
        issue_token store leaseId now ttl key = .denied .expired now) ∧
      (∀ r, get_license store key = some r → r.status ≠ .disabled →
        toSeconds now < toSeconds (addDays r.issued_at r.duration_days) →
        issue_token store leaseId now ttl key =
          .allowed
            { lease_id := leaseId
              lease_issued_at := toSeconds now
              lease_expires_at := toSeconds now + ttl
              license_key := r.license_key
              license_issued_at := r.issued_at
              duration_days := r.duration_days
              license_expires_at := addDays r.issued_at r.duration_days
              remaining_time :=
                split_remaining_time now (addDays r.issued_at r.duration_days)
              token_ttl_seconds := ttl
              server_time := now }) ∧
      (∀ r, get_license store key = some r → r.status = .disabled →
        toSeconds (addDays r.issued_at r.duration_days) ≤ toSeconds now →
        issue_token store leaseId now ttl key = .denied .disabled now) := by
  intro store leaseId now ttl key
  refine ⟨?_, ?_, ?_, ?_, ?_⟩
  · intro h
    simp [issue_token, h]
  · intro r h hd
    simp [issue_token, h, hd]
  · intro r h hd hexp
    simp [issue_token, h, hd, not_lt.mpr hexp]
  · intro r h hd hfresh
    simp [issue_token, h, hd, not_le.mpr hfresh]
  · intro r h hd _
    simp [issue_token, h, hd]

/-- Witness for C1: a record that is both disabled and long past its
window is denied with reason `disabled`, not `expired`. -/
theorem issue_token_disabled_and_expired_witness :
    issue_token
        (fun k =>
          if k = "AAAA-BBBB-CCCC" then
            some ⟨"AAAA-BBBB-CCCC", ⟨2024, 1, 1, 0, 0, 0⟩, 1, .disabled, none⟩
          else none)
        "lease-1" ⟨2024, 6, 1, 0, 0, 0⟩ 60 "AAAA-BBBB-CCCC" =
      .denied .disabled ⟨2024, 6, 1, 0, 0, 0⟩ :=
  (issue_token_decision_order _ _ _ _ _).2.2.2.2
    ⟨"AAAA-BBBB-CCCC", ⟨2024, 1, 1, 0, 0, 0⟩, 1, .disabled, none⟩
    (by rfl) (by rfl) (by decide)

/-- C9: `disable_license` and `enable_license` are pure status flips — on a
present key they change only the `status` field of that record, leave every
other record unchanged, and return `true`; on an absent key they leave the
store untouched and return `false` (a no-op, not an error). -/
theorem disable_enable_pure_status_flips :
    ∀ (store : Store) (key : String),
      (store key = none →
        disable_license store key = (store, false) ∧
        enable_license store key = (store, false)) ∧
      (∀ r, store key = some r →
        (disable_license store key).2 = true ∧
        (disable_license store key).1 key =
          some ⟨r.license_key, r.issued_at, r.duration_days, .disabled, r.note⟩ ∧
        (∀ k, k ≠ key → (disable_license store key).1 k = store k) ∧
        (enable_license store key).2 = true ∧
        (enable_license store key).1 key =
          some ⟨r.license_key, r.issued_at, r.duration_days, .active, r.note⟩ ∧
        (∀ k, k ≠ key → (enable_license store key).1 k = store k)) := by
  intro store key
  constructor
  · intro h
    constructor <;> simp [disable_license, enable_license, set_license_status, h]
  · intro r h
    refine ⟨?_, ?_, ?_, ?_, ?_, ?_⟩ <;>
      simp [disable_license, enable_license, set_license_status, h]
    · intro k hk
      simp [hk]
    · intro k hk
      simp [hk]

/-- Witness for C9: flipping a concrete one-record store. -/
theorem disable_enable_pure_status_flips_witness :
    ((disable_license
        (fun k =>
          if k = "KEY1" then
            some ⟨"KEY1", ⟨2024, 1, 1, 0, 0, 0⟩, 30, .active, some "n"⟩
          else none)
        "KEY1").1 "KEY1" =
      some ⟨"KEY1", ⟨2024, 1, 1, 0, 0, 0⟩, 30, .disabled, some "n"⟩) ∧
    ((disable_license
        (fun k =>
          if k = "KEY1" then
            some ⟨"KEY1", ⟨2024, 1, 1, 0, 0, 0⟩, 30, .active, some "n"⟩
          else none)
        "KEY1").1 "OTHER" = none) :=
  by
    have h :=
      (disable_enable_pure_status_flips
        (fun k =>
          if k = "KEY1" then
            some ⟨"KEY1", ⟨2024, 1, 1, 0, 0, 0⟩, 30, .active, some "n"⟩
          else none)
        "KEY1").2
        ⟨"KEY1", ⟨2024, 1, 1, 0, 0, 0⟩, 30, .active, some "n"⟩ (by rfl)
    exact ⟨h.2.1, by simpa using h.2.2.1 "OTHER" (by decide)⟩

/-- C2: for a license whose validity window has lapsed, the admin enable
endpoint rejects a plain enable with a distinguishable error and leaves the
store untouched; the license becomes active again only through the
reactivation path, which requires a new duration `d ≥ 1` and overwrites
`issuedAt := now`, `durationDays := d`, `status := active` (keeping key and
note, and touching no other record). -/
theorem enable_license_view_expired_requires_reactivation :
    ∀ (store : Store) (key : String) (r : LicenseRecord)
      (days : Option String) (now : DateTime),
      store key = some r →
      toSeconds (addDays r.issued_at r.duration_days) ≤ toSeconds now →
      (pyStrip (days.getD "") = "" →
        enable_license_view store key days now =
          (store,
            .errorRedirect
              s!"License is expired. Select a duration (days) before enabling: {key}")) ∧
      (pyStrip (days.getD "") ≠ "" → pyInt (pyStrip (days.getD "")) = none →
        enable_license_view store key days now =
          (store, .errorRedirect "Days must be an integer.")) ∧
      (∀ d : Int, pyStrip (days.getD "") ≠ "" →
        pyInt (pyStrip (days.getD "")) = some d → d < 1 →
        enable_license_view store key days now =
          (store, .errorRedirect "Days must be >= 1.")) ∧
      (∀ d : Int, pyStrip (days.getD "") ≠ "" →
        pyInt (pyStrip (days.getD "")) = some d → 1 ≤ d →
        (enable_license_view store key days now).1 key =
          some ⟨r.license_key, now, d.toNat, .active, r.note⟩ ∧
        (∀ k, k ≠ key →
          (enable_license_view store key days now).1 k = store k) ∧
        (enable_license_view store key days now).2 =
          .messageRedirect s!"License reactivated for {d} day(s): {key}") := by
  intro store key r days now hrec hexp
  have hge : toSeconds now ≥ toSeconds (addDays r.issued_at r.duration_days) :=
    hexp
  refine ⟨?_, ?_, ?_, ?_⟩
  · intro hblank
    simp [enable_license_view, get_license, hrec, hge, hblank]
  · intro hnb hparse
    simp [enable_license_view, get_license, hrec, hge, hnb, hparse]
  · intro d hnb hparse hlt
    simp [enable_license_view, get_license, hrec, hge, hnb, hparse, hlt]
  · intro d hnb hparse hge1
    have hnl : ¬ d < 1 := not_lt.mpr hge1
    refine ⟨?_, ?_, ?_⟩
    · simp [enable_license_view, get_license, hrec, hge, hnb, hparse, hnl,
        reactivate_license]
    · intro k hk
      simp [enable_license_view, get_license, hrec, hge, hnb, hparse, hnl,
        reactivate_license, hk]
    · simp [enable_license_view, get_license, hrec, hge, hnb, hparse, hnl,
        reactivate_license]

/-- Witness for C2 at a concrete expired record: the blank-days enable is
rejected leaving the store unchanged, and a `days=30` enable reactivates
with a fresh 30-day window issued now. -/
theorem enable_license_view_expired_witness :
    (enable_license_view
        (fun k =>
          if k = "EXPD-TEST-0001" then
            some ⟨"EXPD-TEST-0001", ⟨2024, 1, 1, 0, 0, 0⟩, 1, .disabled, none⟩
          else none)
        "EXPD-TEST-0001" none ⟨2024, 6, 1, 0, 0, 0⟩ =
      ((fun k =>
          if k = "EXPD-TEST-0001" then
            some ⟨"EXPD-TEST-0001", ⟨2024, 1, 1, 0, 0, 0⟩, 1, .disabled, none⟩
          else none),
        .errorRedirect
          "License is expired. Select a duration (days) before enabling: EXPD-TEST-0001")) ∧
    ((enable_license_view
        (fun k =>
          if k = "EXPD-TEST-0001" then
            some ⟨"EXPD-TEST-0001", ⟨2024, 1, 1, 0, 0, 0⟩, 1, .disabled, none⟩
          else none)
        "EXPD-TEST-0001" (some "30") ⟨2024, 6, 1, 0, 0, 0⟩).1 "EXPD-TEST-0001" =
      some ⟨"EXPD-TEST-0001", ⟨2024, 6, 1, 0, 0, 0⟩, 30, .active, none⟩) := by
  constructor
  · exact
      (enable_license_view_expired_requires_reactivation
        (fun k =>
          if k = "EXPD-TEST-0001" then
            some ⟨"EXPD-TEST-0001", ⟨2024, 1, 1, 0, 0, 0⟩, 1, .disabled, none⟩
          else none)
        "EXPD-TEST-0001"
        ⟨"EXPD-TEST-0001", ⟨2024, 1, 1, 0, 0, 0⟩, 1, .disabled, none⟩
        none ⟨2024, 6, 1, 0, 0, 0⟩ (by rfl) (by decide)).1 (by decide)
  · exact
      ((enable_license_view_expired_requires_reactivation
        (fun k =>
          if k = "EXPD-TEST-0001" then
            some ⟨"EXPD-TEST-0001", ⟨2024, 1, 1, 0, 0, 0⟩, 1, .disabled, none⟩
          else none)
        "EXPD-TEST-0001"
        ⟨"EXPD-TEST-0001", ⟨2024, 1, 1, 0, 0, 0⟩, 1, .disabled, none⟩
        (some "30") ⟨2024, 6, 1, 0, 0, 0⟩ (by rfl) (by decide)).2.2.2 30
        (by decide) (by rfl) (by decide)).1

/-- A successful run of the key-generation retry loop returns a key absent
from the store, found within its fuel budget of attempts. -/
lemma generate_unique_key_go_ok (store : Store) (gen : Nat → String) :
    ∀ (fuel start : Nat) (key : String),
      generate_unique_key_go store gen fuel start = .ok key →
      store key = none ∧ ∃ j, j < fuel ∧ key = gen (start + j) := by
  intro fuel
  induction fuel with
  | zero => intro start key h; simp [generate_unique_key_go] at h
  | succ n ih =>
    intro start key h
    by_cases hs : (store (gen start)).isSome
    · simp only [generate_unique_key_go, hs, if_true] at h
      obtain ⟨h1, j, hj, hk⟩ := ih (start + 1) key h
      refine ⟨h1, j + 1, by omega, ?_⟩
      rw [hk]
      congr 1
      omega
    · have hs' : (store (gen start)).isSome = false := by simpa using hs
      simp only [generate_unique_key_go, hs', Bool.false_eq_true, if_false] at h
      have hkey : gen start = key := by
        injection h
      subst hkey
      refine ⟨Option.not_isSome_iff_eq_none.mp hs, 0, by omega, by simp⟩

/-- If every candidate within the fuel budget collides, the retry loop
exhausts and fails. -/
lemma generate_unique_key_go_exhaust (store : Store) (gen : Nat → String) :
    ∀ (fuel start : Nat),
      (∀ j, j < fuel → (store (gen (start + j))).isSome = true) →
      generate_unique_key_go store gen fuel start =
        .error .generationExhausted := by
  intro fuel
  induction fuel with
  | zero => intro start _; rfl
  | succ n ih =>
    intro start h
    have h0 : (store (gen start)).isSome = true := by
      have := h 0 (by omega)
      simpa using this
    simp only [generate_unique_key_go, h0, if_true]
    exact ih (start + 1) fun j hj => by
      have := h (j + 1) (by omega)
      simpa [Nat.add_assoc, Nat.add_comm 1 j] using this

/-- C4: `generate_unique_key(store)` never returns a key already present in
the store — a colliding candidate counts as a retry — it uses at most 100
attempts (`KEY_GENERATION_ATTEMPTS`), and when all 100 candidates collide
it fails with the distinguishable `GenerationExhausted` error instead of
returning a colliding key. -/
theorem generate_unique_key_spec :
    (∀ (store : Store) (gen : Nat → String) (key : String),
      generate_unique_key store gen = .ok key →
        store key = none ∧ ∃ i, i < KEY_GENERATION_ATTEMPTS ∧ key = gen i) ∧
    (∀ (store : Store) (gen : Nat → String),
      (∀ i, i < KEY_GENERATION_ATTEMPTS → (store (gen i)).isSome = true) →
      generate_unique_key store gen = .error .generationExhausted) := by
  constructor
  · intro store gen key h
    obtain ⟨h1, j, hj, hk⟩ :=
      generate_unique_key_go_ok store gen KEY_GENERATION_ATTEMPTS 0 key h
    exact ⟨h1, j, hj, by simpa using hk⟩
  · intro store gen h
    exact generate_unique_key_go_exhaust store gen KEY_GENERATION_ATTEMPTS 0
      fun j hj => by simpa using h j hj

/-- Witness for C4: on an empty store the first candidate is fresh, so the
returned key is not present in the store and was found within budget. -/
theorem generate_unique_key_spec_witness :
    (fun _ => none : Store) "AAAA-AAAA-AAAA" = none ∧
      ∃ i, i < KEY_GENERATION_ATTEMPTS ∧
        "AAAA-AAAA-AAAA" = (fun _ => "AAAA-AAAA-AAAA") i :=
  generate_unique_key_spec.1 (fun _ => none) (fun _ => "AAAA-AAAA-AAAA")
    "AAAA-AAAA-AAAA" (by rfl)

/-- C5: `create_license` rejects `days < 1` with `InvalidArgument`
(returning no inserted state), rejects an explicit key that is blank after
trimming with `InvalidArgument`, surfaces an explicit key already present
as `DuplicateKey` — a failure distinct from generation exhaustion — and
otherwise inserts the trimmed-key record with `status = active` and
`issuedAt = now`. -/
theorem create_license_validation :
    ∀ (store : Store) (now : DateTime) (gen : Nat → String) (days : Int)
      (key note : Option String),
      (days < 1 →
        create_license store now gen days key note =
          .error (.invalidArgument "--days must be >= 1")) ∧
      (∀ k, key = some k → 1 ≤ days → pyStrip k = "" →
        create_license store now gen days key note =
          .error (.invalidArgument "--key must be non-empty")) ∧
      (∀ k r, key = some k → 1 ≤ days → pyStrip k ≠ "" →
        store (pyStrip k) = some r →
        create_license store now gen days key note = .error .duplicateKey ∧
          CreateError.duplicateKey ≠ CreateError.generationExhausted) ∧
      (∀ k, key = some k → 1 ≤ days → pyStrip k ≠ "" →
        store (pyStrip k) = none →
        create_license store now gen days key note =
          .ok
            (fun k2 =>
              if k2 = pyStrip k then
                some
                  ⟨pyStrip k, now, days.toNat, .active,
                    match note with
                    | none => none
                    | some s => if s = "" then none else some s⟩
              else store k2,
              ⟨pyStrip k, now, days.toNat, .active,
                match note with
                | none => none
                | some s => if s = "" then none else some s⟩)) := by
  intro store now gen days key note
  refine ⟨?_, ?_, ?_, ?_⟩
  · intro h
    simp [create_license, h]
  · intro k hk hd hblank
    subst hk
    simp [create_license, not_lt.mpr hd, hblank]
  · intro k r hk hd hblank hdup
    subst hk
    refine ⟨?_, by decide⟩
    simp [create_license, not_lt.mpr hd, hblank, insert_license, hdup]
  · intro k hk hd hblank hfree
    subst hk
    simp [create_license, not_lt.mpr hd, hblank, insert_license, hfree]

/-- Witness for C5: creating with `days = 0` fails with
`InvalidArgument`, and creating with an explicit key equal to an existing
key fails with `DuplicateKey`. -/
theorem create_license_validation_witness :
    create_license (fun _ => none) ⟨2024, 1, 1, 0, 0, 0⟩ (fun _ => "GGGG") 0
        (some "AAAA-BBBB-CCCC") none =
      .error (.invalidArgument "--days must be >= 1") ∧
    create_license
        (fun k =>
          if k = "AAAA-BBBB-CCCC" then
            some ⟨"AAAA-BBBB-CCCC", ⟨2024, 1, 1, 0, 0, 0⟩, 7, .active, none⟩
          else none)
        ⟨2024, 2, 1, 0, 0, 0⟩ (fun _ => "GGGG") 7 (some "AAAA-BBBB-CCCC")
        none =
      .error .duplicateKey :=
  ⟨(create_license_validation (fun _ => none) ⟨2024, 1, 1, 0, 0, 0⟩
      (fun _ => "GGGG") 0 (some "AAAA-BBBB-CCCC") none).1 (by decide),
    ((create_license_validation
      (fun k =>
        if k = "AAAA-BBBB-CCCC" then
          some ⟨"AAAA-BBBB-CCCC", ⟨2024, 1, 1, 0, 0, 0⟩, 7, .active, none⟩
        else none)
      ⟨2024, 2, 1, 0, 0, 0⟩ (fun _ => "GGGG") 7 (some "AAAA-BBBB-CCCC")
      none).2.2.1 "AAAA-BBBB-CCCC"
      ⟨"AAAA-BBBB-CCCC", ⟨2024, 1, 1, 0, 0, 0⟩, 7, .active, none⟩
      (by rfl) (by decide) (by decide) (by rfl)).1⟩

/-- C7 counterexample: a blank (whitespace-only, non-empty) note is NOT
normalized to absence — `note if note else None` is Python truthiness, and
`" "` is truthy, so `create_license` stores the note `" "` as given. -/
theorem create_license_blank_note_not_absent :
    (create_license (fun _ => none) ⟨2024, 1, 1, 0, 0, 0⟩ (fun _ => "GGGG") 1
        (some "AAAA-BBBB-CCCC") (some " ")).map (fun p => p.2.note) =
      .ok (some " ") ∧ (some " " : Option String) ≠ none := by
  constructor
  · rfl
  · decide

/-- A record returned by the generated-key retry loop carries exactly the
note the loop was given. -/
lemma create_license_attempts_ok_note (store : Store) (gen : Nat → String)
    (issuedAt : DateTime) (days : Nat) (note : Option String) :
    ∀ (fuel i : Nat) (s2 : Store) (r : LicenseRecord),
      create_license_attempts store gen issuedAt days note fuel i =
        .ok (s2, r) → r.note = note := by
  intro fuel
  induction fuel with
  | zero => intro i s2 r h; simp [create_license_attempts] at h
  | succ n ih =>
    intro i s2 r h
    simp only [create_license_attempts, insert_license] at h
    cases hstore : store (gen i) with
    | some q =>
      rw [hstore] at h
      exact ih (i + 1) s2 r h
    | none =>
      rw [hstore] at h
      injection h with hp
      have hnote := congrArg (fun p : Store × LicenseRecord => p.2.note) hp
      simp only at hnote
      exact hnote.symm

/-- C7 (amended): `create_license` drops only a missing or empty note —
`None` and `""` are stored as absence — while any non-empty note,
whitespace-only ones included, is stored exactly as given; an empty note
is never stored as empty text. -/
theorem create_license_note_normalization :
    ∀ (store : Store) (now : DateTime) (gen : Nat → String) (days : Int)
      (key note : Option String) (s2 : Store) (r : LicenseRecord),
      create_license store now gen days key note = .ok (s2, r) →
      r.note =
        (match note with
          | none => none
          | some s => if s = "" then none else some s) := by
  intro store now gen days key note s2 r h
  by_cases hd : days < 1
  · simp [create_license, hd] at h
  · cases key with
    | some k =>
      by_cases hblank : pyStrip k = ""
      · simp [create_license, hd, hblank] at h
      · cases hstore : store (pyStrip k) with
        | some q => simp [create_license, hd, hblank, insert_license, hstore] at h
        | none =>
          simp only [create_license, hd, if_false, hblank, insert_license,
            hstore] at h
          injection h with hp
          have hnote := congrArg (fun p : Store × LicenseRecord => p.2.note) hp
          simp only at hnote
          exact hnote.symm
    | none =>
      simp only [create_license, hd, if_false] at h
      exact create_license_attempts_ok_note store gen now days.toNat _
        KEY_GENERATION_ATTEMPTS 0 s2 r h

/-- Witness for C7 (amended) at a concrete creation with a non-blank note:
the note is stored as given. -/
theorem create_license_note_normalization_witness :
    (⟨"AAAA-BBBB-CCCC", ⟨2024, 1, 1, 0, 0, 0⟩, 1, .active, some "hi"⟩ :
        LicenseRecord).note =
      (match some "hi" with
        | none => none
        | some s => if s = "" then none else some s) :=
  create_license_note_normalization (fun _ => none) ⟨2024, 1, 1, 0, 0, 0⟩
    (fun _ => "GGGG") 1 (some "AAAA-BBBB-CCCC") (some "hi")
    (fun k2 =>
      if k2 = "AAAA-BBBB-CCCC" then
        some ⟨"AAAA-BBBB-CCCC", ⟨2024, 1, 1, 0, 0, 0⟩, 1, .active, some "hi"⟩
      else (fun _ => none : Store) k2)
    ⟨"AAAA-BBBB-CCCC", ⟨2024, 1, 1, 0, 0, 0⟩, 1, .active, some "hi"⟩ (by rfl)

/-- Value of the rendered digit character. -/
lemma digitVal_digitChar (n : Nat) (h : n ≤ 9) : digitVal (digitChar n) = n := by
  interval_cases n <;> decide

/-- Rendered digit characters are digits. -/
lemma isDigitChar_digitChar (n : Nat) (h : n ≤ 9) :
    isDigitChar (digitChar n) = true := by
  interval_cases n <;> decide

/-- Digit characters are not whitespace. -/
lemma isSpaceChar_digitChar (n : Nat) (h : n ≤ 9) :
    isSpaceChar (digitChar n) = false := by
  interval_cases n <;> decide

/-- Digit characters are never the UTC designator. -/
lemma digitChar_ne_Z (n : Nat) (h : n ≤ 9) : digitChar n ≠ 'Z' := by
  interval_cases n <;> decide

/-- `str.strip()` leaves text alone whose first and last characters are not
whitespace. -/
lemma stripChars_cons_concat (a b : Char) (l : List Char)
    (ha : isSpaceChar a = false) (hb : isSpaceChar b = false) :
    stripChars (a :: (l ++ [b])) = a :: (l ++ [b]) := by
  unfold stripChars
  rw [List.dropWhile_cons, if_neg (by simp [ha])]
  rw [show (a :: (l ++ [b])).reverse = b :: (l.reverse ++ [a]) from by simp]
  rw [List.dropWhile_cons, if_neg (by simp [hb])]
  rw [show (b :: (l.reverse ++ [a])).reverse = a :: (l ++ [b]) from by simp]

/-- Every month has at most 31 days. -/
lemma daysInMonth_le_31 (y m : Nat) : daysInMonth y m ≤ 31 := by
  unfold daysInMonth
  split <;> try omega
  split <;> omega

/-- Reading back the zero-padded rendering of a valid instant recovers the
instant, leaving the rest of the text unconsumed. -/
lemma parseDateTime19_pads (d : DateTime) (rest : List Char) (hv : ValidDT d) :
    parseDateTime19 (digitChar (d.year / 1000) :: digitChar (d.year / 100 % 10) ::
      digitChar (d.year / 10 % 10) :: digitChar (d.year % 10) :: '-' ::
      digitChar (d.month / 10) :: digitChar (d.month % 10) :: '-' ::
      digitChar (d.day / 10) :: digitChar (d.day % 10) :: 'T' ::
      digitChar (d.hour / 10) :: digitChar (d.hour % 10) :: ':' ::
      digitChar (d.minute / 10) :: digitChar (d.minute % 10) :: ':' ::
      digitChar (d.second / 10) :: digitChar (d.second % 10) :: rest) =
      some (d, rest) := by
  obtain ⟨hy1, hy2, hmo1, hmo2, hd1, hd2, hh, hmi, hs⟩ := hv
  have hd31 : d.day ≤ 31 := hd2.trans (daysInMonth_le_31 _ _)
  have e1 : d.year / 1000 ≤ 9 := by omega
  have e2 : d.year / 100 % 10 ≤ 9 := by omega
  have e3 : d.year / 10 % 10 ≤ 9 := by omega
  have e4 : d.year % 10 ≤ 9 := by omega
  have e5 : d.month / 10 ≤ 9 := by omega
  have e6 : d.month % 10 ≤ 9 := by omega
  have e7 : d.day / 10 ≤ 9 := by omega
  have e8 : d.day % 10 ≤ 9 := by omega
  have e9 : d.hour / 10 ≤ 9 := by omega
  have e10 : d.hour % 10 ≤ 9 := by omega
  have e11 : d.minute / 10 ≤ 9 := by omega
  have e12 : d.minute % 10 ≤ 9 := by omega
  have e13 : d.second / 10 ≤ 9 := by omega
  have e14 : d.second % 10 ≤ 9 := by omega
  have hY : d.year / 1000 * 1000 + d.year / 100 % 10 * 100 +
      d.year / 10 % 10 * 10 + d.year % 10 = d.year := by omega
  have hMo : d.month / 10 * 10 + d.month % 10 = d.month := by omega
  have hD : d.day / 10 * 10 + d.day % 10 = d.day := by omega
  have hH : d.hour / 10 * 10 + d.hour % 10 = d.hour := by omega
  have hMi : d.minute / 10 * 10 + d.minute % 10 = d.minute := by omega
  have hS : d.second / 10 * 10 + d.second % 10 = d.second := by omega
  simp only [parseDateTime19, isDigitChar_digitChar _ e1,
    isDigitChar_digitChar _ e2, isDigitChar_digitChar _ e3,
    isDigitChar_digitChar _ e4, isDigitChar_digitChar _ e5,
    isDigitChar_digitChar _ e6, isDigitChar_digitChar _ e7,
    isDigitChar_digitChar _ e8, isDigitChar_digitChar _ e9,
    isDigitChar_digitChar _ e10, isDigitChar_digitChar _ e11,
    isDigitChar_digitChar _ e12, isDigitChar_digitChar _ e13,
    isDigitChar_digitChar _ e14, Bool.and_self, if_true,
    digitVal_digitChar _ e1, digitVal_digitChar _ e2, digitVal_digitChar _ e3,
    digitVal_digitChar _ e4, digitVal_digitChar _ e5, digitVal_digitChar _ e6,
    digitVal_digitChar _ e7, digitVal_digitChar _ e8, digitVal_digitChar _ e9,
    digitVal_digitChar _ e10, digitVal_digitChar _ e11,
    digitVal_digitChar _ e12, digitVal_digitChar _ e13,
    digitVal_digitChar _ e14, hY, hMo, hD, hH, hMi, hS]
  rw [if_pos ⟨hy1, hmo1, hmo2, hd1, hd2, hh, hmi, hs⟩]

/-- Canonical timestamps carry no surrounding whitespace. -/
lemma stripChars_to_rfc3339 (d : DateTime) (h : d.year / 1000 ≤ 9) :
    stripChars (to_rfc3339 d).data = (to_rfc3339 d).data := by
  rw [show (to_rfc3339 d).data =
      digitChar (d.year / 1000) ::
        ([digitChar (d.year / 100 % 10), digitChar (d.year / 10 % 10),
          digitChar (d.year % 10), '-', digitChar (d.month / 10),
          digitChar (d.month % 10), '-', digitChar (d.day / 10),
          digitChar (d.day % 10), 'T', digitChar (d.hour / 10),
          digitChar (d.hour % 10), ':', digitChar (d.minute / 10),
          digitChar (d.minute % 10), ':', digitChar (d.second / 10),
          digitChar (d.second % 10)] ++ ['Z']) from rfl]
  exact stripChars_cons_concat _ _ _ (isSpaceChar_digitChar _ h) (by decide)

/-- Canonical timezone-less timestamps carry no surrounding whitespace. -/
lemma stripChars_to_rfc3339_no_tz (d : DateTime) (h1 : d.year / 1000 ≤ 9)
    (h2 : d.second % 10 ≤ 9) :
    stripChars (to_rfc3339_no_tz d).data = (to_rfc3339_no_tz d).data := by
  rw [show (to_rfc3339_no_tz d).data =
      digitChar (d.year / 1000) ::
        ([digitChar (d.year / 100 % 10), digitChar (d.year / 10 % 10),
          digitChar (d.year % 10), '-', digitChar (d.month / 10),
          digitChar (d.month % 10), '-', digitChar (d.day / 10),
          digitChar (d.day % 10), 'T', digitChar (d.hour / 10),
          digitChar (d.hour % 10), ':', digitChar (d.minute / 10),
          digitChar (d.minute % 10), ':', digitChar (d.second / 10)] ++
          [digitChar (d.second % 10)]) from rfl]
  exact stripChars_cons_concat _ _ _ (isSpaceChar_digitChar _ h1)
    (isSpaceChar_digitChar _ h2)

/-- A successful date-time read consumed exactly the 19 leading
characters. -/
lemma parseDateTime19_shape (l : List Char) (d : DateTime) (rest : List Char)
    (h : parseDateTime19 l = some (d, rest)) :
    ∃ pre, l = pre ++ rest ∧ pre.length = 19 := by
  unfold parseDateTime19 at h
  split at h
  next y1 y2 y3 y4 m1 m2 d1 d2 sep h1 h2 mi1 mi2 s1 s2 rest' =>
    split at h
    · dsimp only at h
      split at h
      · obtain ⟨-, hrest⟩ := Prod.mk.injEq _ _ _ _ ▸ (Option.some.injEq _ _).mp h
        subst hrest
        exact ⟨[y1, y2, y3, y4, '-', m1, m2, '-', d1, d2, sep, h1, h2, ':',
          mi1, mi2, ':', s1, s2], rfl, rfl⟩
      · simp at h
    · simp at h
  next => simp at h

/-- A successful offset read means the text ended in an explicit signed
`±HH:MM` offset. -/
lemma parseOffset_shape (l : List Char) (off : Int)
    (h : parseOffset l = some off) :
    ∃ sign o1 o2 o3 o4, l = [sign, o1, o2, ':', o3, o4] ∧
      (sign = '+' ∨ sign = '-') := by
  unfold parseOffset at h
  split at h
  next sign o1 o2 o3 o4 =>
    split at h
    · next hguard =>
      refine ⟨sign, o1, o2, o3, o4, rfl, ?_⟩
      have hsign : (sign == '+' || sign == '-') = true := by
        by_contra hc
        simp only [Bool.not_eq_true, Bool.or_eq_false_iff] at hc
        simp [hc.1, hc.2] at hguard
      rcases Bool.or_eq_true_iff.mp hsign with h1 | h1
      · exact Or.inl (by simpa using h1)
      · exact Or.inr (by simpa using h1)
    · simp at h
  next => simp at h

/-- C8: the timestamp codec round-trips exactly — for every UTC instant at
second precision, `parse (format t) = t` (instants read as their epoch
second count) — and `parse` fails with the timezone error on canonical text
lacking timezone information; moreover any text it accepts at all ends in
an explicit `Z` or signed `±HH:MM` offset, so every text without explicit
timezone information is rejected. -/
theorem parse_format_roundtrip_and_tz_required :
    (∀ d : DateTime, ValidDT d →
      parse_rfc3339 (to_rfc3339 d) = .ok ((toSeconds d : Int))) ∧
    (∀ d : DateTime, ValidDT d →
      parse_rfc3339 (to_rfc3339_no_tz d) =
        .error "Timestamp must include timezone information") ∧
    (∀ (s : String) (v : Int), parse_rfc3339 s = .ok v →
      (stripChars s.data).getLast? = some 'Z' ∨
      ∃ pre sign o1 o2 o3 o4,
        stripChars s.data = pre ++ [sign, o1, o2, ':', o3, o4] ∧
        (sign = '+' ∨ sign = '-')) := by
  refine ⟨?_, ?_, ?_⟩
  · intro d hv
    have e1 : d.year / 1000 ≤ 9 := by
      obtain ⟨hy1, hy2, hrest⟩ := hv
      omega
    simp only [parse_rfc3339, stripChars_to_rfc3339 d e1]
    rw [if_pos (show ((to_rfc3339 d).data).getLast? = some 'Z' from rfl)]
    rw [show ((to_rfc3339 d).data).dropLast ++ ['+', '0', '0', ':', '0', '0'] =
        digitChar (d.year / 1000) :: digitChar (d.year / 100 % 10) ::
          digitChar (d.year / 10 % 10) :: digitChar (d.year % 10) :: '-' ::
          digitChar (d.month / 10) :: digitChar (d.month % 10) :: '-' ::
          digitChar (d.day / 10) :: digitChar (d.day % 10) :: 'T' ::
          digitChar (d.hour / 10) :: digitChar (d.hour % 10) :: ':' ::
          digitChar (d.minute / 10) :: digitChar (d.minute % 10) :: ':' ::
          digitChar (d.second / 10) :: digitChar (d.second % 10) ::
          ['+', '0', '0', ':', '0', '0'] from rfl]
    rw [parseDateTime19_pads d ['+', '0', '0', ':', '0', '0'] hv]
    show Except.ok ((toSeconds d : Int) - 0) = Except.ok ((toSeconds d : Int))
    norm_num
  · intro d hv
    have e1 : d.year / 1000 ≤ 9 := by
      obtain ⟨hy1, hy2, hrest⟩ := hv
      omega
    have e14 : d.second % 10 ≤ 9 := by omega
    simp only [parse_rfc3339, stripChars_to_rfc3339_no_tz d e1 e14]
    rw [if_neg (show ¬ (((to_rfc3339_no_tz d).data).getLast? = some 'Z') from by
      rw [show ((to_rfc3339_no_tz d).data).getLast? =
          some (digitChar (d.second % 10)) from rfl]
      simp [digitChar_ne_Z _ e14])]
    rw [show (to_rfc3339_no_tz d).data =
        digitChar (d.year / 1000) :: digitChar (d.year / 100 % 10) ::
          digitChar (d.year / 10 % 10) :: digitChar (d.year % 10) :: '-' ::
          digitChar (d.month / 10) :: digitChar (d.month % 10) :: '-' ::
          digitChar (d.day / 10) :: digitChar (d.day % 10) :: 'T' ::
          digitChar (d.hour / 10) :: digitChar (d.hour % 10) :: ':' ::
          digitChar (d.minute / 10) :: digitChar (d.minute % 10) :: ':' ::
          digitChar (d.second / 10) :: digitChar (d.second % 10) ::
          ([] : List Char) from rfl]
    rw [parseDateTime19_pads d [] hv]

  · intro s v h
    simp only [parse_rfc3339] at h
    by_cases hz : (stripChars s.data).getLast? = some 'Z'
    · exact Or.inl hz
    · right
      rw [if_neg hz] at h
      split at h
      · simp at h
      · next d0 rest heq =>
        split at h
        · simp at h
        · split at h
          · simp at h
          · next off hoff =>
            obtain ⟨pre, hpre, -⟩ := parseDateTime19_shape _ _ _ heq
            obtain ⟨sign, o1, o2, o3, o4, hrest, hsign⟩ :=
              parseOffset_shape _ _ hoff
            exact ⟨pre, sign, o1, o2, o3, o4, by rw [hpre, hrest], hsign⟩

/-- Witness for C8: round-trip at a concrete leap-day instant. -/
theorem parse_format_roundtrip_witness :
    parse_rfc3339 (to_rfc3339 ⟨2024, 2, 29, 23, 59, 58⟩) =
      .ok ((toSeconds ⟨2024, 2, 29, 23, 59, 58⟩ : Int)) :=
  parse_format_roundtrip_and_tz_required.1 ⟨2024, 2, 29, 23, 59, 58⟩ (by decide)
